import Mathlib

/-!
Verification of the Telegram-Storage-System repository against its
natural-language specification.  The Python source is shallowly embedded:
pure functions become Lean functions, the Redis key-value store and the
relational tables become explicit association lists, and each HTTP / bot
handler becomes a state-passing Lean function mirroring the source line by
line.  Machine-level concerns (timestamps held in the rows, serial row ids)
are modelled with `Nat`.
-/

set_option autoImplicit false
set_option linter.unusedVariables false

namespace TgStorage

/-! ### Classifier tables (src/bot/bot.py, lines 57-78)

`FILE_CATEGORIES` maps a category to its MIME types, `FILE_EXTENSIONS`
maps a category to its (lower-case, dot-prefixed) extensions, in the
insertion order of the Python dicts. -/

def FILE_CATEGORIES : List (String × List String) :=
  [("image", ["image/jpeg", "image/png", "image/gif", "image/webp", "image/svg+xml"]),
   ("video", ["video/mp4", "video/mpeg", "video/quicktime", "video/webm"]),
   ("audio", ["audio/mpeg", "audio/mp4", "audio/ogg", "audio/wav", "audio/webm"]),
   ("document", ["application/pdf", "application/msword",
      "application/vnd.openxmlformats-officedocument.wordprocessingml.document"]),
   ("spreadsheet", ["application/vnd.ms-excel",
      "application/vnd.openxmlformats-officedocument.spreadsheetml.sheet"]),
   ("presentation", ["application/vnd.ms-powerpoint",
      "application/vnd.openxmlformats-officedocument.presentationml.presentation"]),
   ("archive", ["application/zip", "application/x-rar-compressed", "application/x-tar",
      "application/gzip"]),
   ("code", ["text/plain", "application/json", "text/html", "text/css",
      "application/javascript"])]

def FILE_EXTENSIONS : List (String × List String) :=
  [("image", [".jpg", ".jpeg", ".png", ".gif", ".webp", ".svg"]),
   ("video", [".mp4", ".mpeg", ".mov", ".webm", ".avi", ".mkv"]),
   ("audio", [".mp3", ".m4a", ".ogg", ".wav", ".flac"]),
   ("document", [".pdf", ".doc", ".docx", ".txt", ".rtf"]),
   ("spreadsheet", [".xls", ".xlsx", ".csv"]),
   ("presentation", [".ppt", ".pptx"]),
   ("archive", [".zip", ".rar", ".tar", ".gz", ".7z"]),
   ("code", [".py", ".js", ".html", ".css", ".json", ".xml", ".java", ".c", ".cpp"])]

/-- The `for category, keys in table.items(): if key in keys: return category`
loop shared by both lookup passes of `categorize_file`. -/
def findCategory (table : List (String × List String)) (key : String) : Option String :=
  match table with
  | [] => none
  | (category, keys) :: rest =>
      if key ∈ keys then some category else findCategory rest key

/-- Index of the last occurrence of `c` in `l` (Python `str.rfind`, restricted
to the found case). -/
def rfindIdx (c : Char) : List Char → Option Nat
  | [] => none
  | a :: rest =>
      match rfindIdx c rest with
      | some i => some (i + 1)
      | none => if a = c then some 0 else none

/-- CPython `posixpath.splitext` on the character list of the path: split at
the last dot, provided the dot lies after the last `/` and at least one
non-dot character of the basename precedes it (so leading dots such as in
`.bashrc` do not start an extension). -/
def splitextList (l : List Char) : List Char × List Char :=
  match rfindIdx '.' l with
  | none => (l, [])
  | some d =>
      let fstart : Nat :=
        match rfindIdx '/' l with
        | none => 0
        | some s => s + 1
      if fstart ≤ d then
        if ((l.drop fstart).take (d - fstart)).any (fun c => c ≠ '.') then
          (l.take d, l.drop d)
        else (l, [])
      else (l, [])

/-- `os.path.splitext` on strings; the second component is the extension
including its dot, or `""`. -/
def splitext (s : String) : String × String :=
  let p := splitextList s.data
  (String.mk p.1, String.mk p.2)

/-- Python `str.lower`, modelled character-wise (the table entries the code
compares against are ASCII). -/
def strLower (s : String) : String :=
  String.mk (s.data.map Char.toLower)

/-- src/bot/bot.py, lines 90-104 (`categorize_file`): MIME lookup first,
then case-insensitive extension lookup on the lowered name, else "other".
The backend imports the same classifier as `app.utils.file_categorizer`. -/
def categorize_file (file_name mime_type : String) : String :=
  match findCategory FILE_CATEGORIES mime_type with
  | some category => category
  | none =>
      let file_extension := (splitext (strLower file_name)).2
      match findCategory FILE_EXTENSIONS file_extension with
      | some category => category
      | none => "other"

/-- The closed category vocabulary of the spec (glossary): the eight table
categories plus the fallback. -/
def closedCategories : List String :=
  ["image", "video", "audio", "document", "spreadsheet", "presentation",
   "archive", "code", "other"]


/-! ### Redis model

The Redis keyspace is an association list, newest binding first.  `delete`
removes exactly the literal key it is given (redis-py `DELETE` performs no
pattern matching); `setex` stores the value (reads in every claim happen
within the TTL window, so the expiry argument is kept but not tracked). -/

abbrev Redis := List (String × String)

def redisGet (r : Redis) (k : String) : Option String :=
  (r.find? (fun p => p.1 == k)).map (fun p => p.2)

def redisSetex (r : Redis) (k : String) (ttl : Nat) (v : String) : Redis :=
  (k, v) :: r.filter (fun p => p.1 != k)

def redisDelete (r : Redis) (k : String) : Redis :=
  r.filter (fun p => p.1 != k)

/-! ### Users table (shared by the API and the bot; timestamp columns are
omitted, they never feed back into control flow) -/

structure UserRec where
  id : Nat
  email : String
  hashed_password : String
  is_active : Bool
  twofa_enabled : Bool
  telegram_id : Option Int
  deriving DecidableEq

abbrev UsersDB := List UserRec

/-- Python `x or default` on an optional string: `None` and `""` are falsy. -/
def pyOr (s : Option String) (d : String) : String :=
  match s with
  | none => d
  | some c => if c = "" then d else c

/-- `startsWithChars needle hay`: `needle` begins `hay`. -/
def startsWithChars : List Char → List Char → Bool
  | [], _ => true
  | _ :: _, [] => false
  | a :: as, b :: bs => a == b && startsWithChars as bs

/-- `containsSub needle hay`: `needle` occurs contiguously in `hay`
(the SQL `ILIKE '%term%'` match, after lower-casing both sides). -/
def containsSub (needle : List Char) : List Char → Bool
  | [] => startsWithChars needle []
  | c :: rest => startsWithChars needle (c :: rest) || containsSub needle rest

/-- `strEndsWith s suffix`: `s` ends with `suffix` (via the reversed
character lists; used to state the ".txt" claim). -/
def strEndsWith (s suffix : String) : Bool :=
  startsWithChars suffix.data.reverse s.data.reverse

namespace Api

/-! ### Backend file store and handlers (src/backend/app/main.py) -/

structure FileRec where
  id : Nat
  name : String
  telegram_file_id : String
  size : Nat
  mime_type : String
  category : String
  user_id : String
  created_at : Nat
  deriving DecidableEq

abbrev FilesDB := List FileRec

/-- src/backend/app/main.py, line 230: the cache key of a list query. -/
def listCacheKey (uid : String) (category search : Option String) (skip limit : Nat) : String :=
  "files:" ++ uid ++ ":" ++ pyOr category "all" ++ ":" ++ pyOr search "none"
    ++ ":" ++ toString skip ++ ":" ++ toString limit

/-- Modelled from the spec: `app.crud.files.get_files` is not under src/.
Per spec sections 4.4 and 6 and the bot's analogous SQL: the owner's rows,
optionally filtered by category equality and by case-insensitive name
containment, newest first (the model keeps `FilesDB` newest-first and
`create_file` prepends), with offset/limit pagination. -/
def get_files (db : FilesDB) (uid : String) (category search : Option String)
    (skip limit : Nat) : List FileRec :=
  ((db.filter (fun f =>
      f.user_id == uid
      && (match category with
          | none => true
          | some c => if c = "" then true else f.category == c)
      && (match search with
          | none => true
          | some s => if s = "" then true
              else containsSub (strLower s).data (strLower f.name).data))).drop skip).take limit

/-- Model of the serialised `FileResponse` list stored as the cached value:
a field-separated rendering of the rows (any encoding works; only equality
and inequality of cached values matter to the claims). -/
def serializeFile (f : FileRec) : String :=
  f.name ++ ";" ++ f.telegram_file_id ++ ";" ++ toString f.size ++ ";" ++ f.mime_type
    ++ ";" ++ f.category ++ ";" ++ f.user_id ++ ";" ++ toString f.id ++ ";" ++ toString f.created_at

def serializeFiles (l : List FileRec) : String :=
  String.intercalate "|" (l.map serializeFile)

/-- src/backend/app/main.py, lines 219-254 (`list_files`): cache-first
read; on a miss the store result is serialised and cached for 300 seconds.
Returns the response body and the cache. -/
def list_files (db : FilesDB) (r : Redis) (uid : String) (category search : Option String)
    (skip limit : Nat) : String × Redis :=
  let cache_key := listCacheKey uid category search skip limit
  match redisGet r cache_key with
  | some cached => (cached, r)
  | none =>
      let result := serializeFiles (get_files db uid category search skip limit)
      (result, redisSetex r cache_key 300 result)

structure UploadData where
  name : String
  telegram_file_id : String
  size : Nat
  mime_type : String
  category : Option String
  deriving DecidableEq

/-- Modelled from the spec: `app.crud.files.create_file` is not under src/;
it inserts the row with a fresh serial id (modelled as `db.length + 1`),
newest-first. -/
def create_file (db : FilesDB) (uid : String) (fd : UploadData) (category : String)
    (now : Nat) : FileRec × FilesDB :=
  let f : FileRec :=
    { id := db.length + 1, name := fd.name, telegram_file_id := fd.telegram_file_id,
      size := fd.size, mime_type := fd.mime_type, category := category,
      user_id := uid, created_at := now }
  (f, f :: db)

/-- src/backend/app/main.py, lines 308-349 (`upload_file`): the stored
category is the request's `category` field when present and non-empty
(Python `file_data.get("category") or categorize_file(...)`), else the
classifier's result; the row is created and then the single literal key
`files:{uid}:*` is deleted from Redis. -/
def upload_file (db : FilesDB) (r : Redis) (uid : String) (fd : UploadData)
    (now : Nat) : FileRec × FilesDB × Redis :=
  let category :=
    match fd.category with
    | none => categorize_file fd.name fd.mime_type
    | some c => if c = "" then categorize_file fd.name fd.mime_type else c
  let p := create_file db uid fd category now
  (p.1, p.2, redisDelete r ("files:" ++ uid ++ ":*"))

/-- Modelled from the spec: `app.crud.files.get_file_by_id` is not under
src/; it is the metadata-store lookup of a file row by id. -/
def get_file_by_id (db : FilesDB) (fid : Nat) : Option FileRec :=
  db.find? (fun f => f.id == fid)

/-- src/backend/app/main.py, lines 256-269 (`download_file`, ownership
gate): `if not file or file.user_id != current_user.id` raises 404 before
any store mutation or platform call; otherwise the handler proceeds with
the row. -/
def download_file_gate (db : FilesDB) (uid : String) (fid : Nat) : Except Nat FileRec :=
  match get_file_by_id db fid with
  | none => .error 404
  | some file => if file.user_id ≠ uid then .error 404 else .ok file

/-- src/backend/app/main.py, lines 351-373 (`delete_file`): same ownership
gate, then the row is deleted and the single literal key `files:{uid}:*`
is deleted from Redis. Returns (HTTP status, store, cache). -/
def delete_file (db : FilesDB) (r : Redis) (uid : String) (fid : Nat) : Nat × FilesDB × Redis :=
  match get_file_by_id db fid with
  | none => (404, db, r)
  | some file =>
      if file.user_id ≠ uid then (404, db, r)
      else (200, db.filter (fun f => f.id != fid), redisDelete r ("files:" ++ uid ++ ":*"))

/-- src/backend/app/main.py, lines 186-216 (`verify_magic_link`): look the
token up under `magic_link:{token}`; absent means 401; otherwise delete
it, mint a bearer token (`create_access_token` lives in app.core.security,
not under src/, so the fresh token string is a parameter) and store it
under `token:{access_token}` with the token lifetime. Returns (401 or the
bearer token, cache). -/
def verify_magic_link (r : Redis) (token access_token : String) (ttl : Nat) :
    Except Nat String × Redis :=
  match redisGet r ("magic_link:" ++ token) with
  | none => (.error 401, r)
  | some user_id =>
      let r1 := redisDelete r ("magic_link:" ++ token)
      let r2 := redisSetex r1 ("token:" ++ access_token) ttl user_id
      (.ok access_token, r2)

inductive LoginOutcome where
  | success (userId : Nat)
  | unauthorized
  | require2fa
  deriving DecidableEq

/-- HTTP status of each login outcome: 200 with the bearer token, 401, or
the 202 `require_2fa` JSON response. -/
def loginStatus : LoginOutcome → Nat
  | .success _ => 200
  | .unauthorized => 401
  | .require2fa => 202

/-- Modelled from the spec: `app.crud.users.get_user_by_email` is not
under src/; lookup of the unique user row by email. -/
def get_user_by_email (db : UsersDB) (email : String) : Option UserRec :=
  db.find? (fun u => u.email == email)

/-- src/backend/app/main.py, lines 94-143 (`login_user`).
`verify_password` (app.core.security) and `users.verify_2fa` (app.crud)
are outside src/ and abstracted as boolean oracles; Python falsiness of a
missing or empty 2FA code is modelled explicitly. -/
def login_user (db : UsersDB) (verify_password : String → String → Bool)
    (verify_2fa : Nat → String → Bool) (email password : String)
    (twofa_code : Option String) : LoginOutcome :=
  match get_user_by_email db email with
  | none => .unauthorized
  | some user =>
      if verify_password password user.hashed_password = false then .unauthorized
      else if user.twofa_enabled then
        match twofa_code with
        | none => .require2fa
        | some code =>
            if code = "" then .require2fa
            else if verify_2fa user.id code = false then .unauthorized
            else .success user.id
      else .success user.id

end Api

namespace Bot

/-! ### Bot-side file store and handlers (src/bot/bot.py); its `user_id`
column is the numeric user id. -/

structure BFile where
  id : Nat
  name : String
  telegram_file_id : String
  size : Nat
  mime_type : String
  category : String
  user_id : Nat
  created_at : Nat
  deriving DecidableEq

abbrev FilesDB := List BFile

/-- src/bot/bot.py, lines 139-151 (`get_user_by_telegram_id`). -/
def get_user_by_telegram_id (db : UsersDB) (telegram_id : Int) : Option UserRec :=
  db.find? (fun u => decide (u.telegram_id = some telegram_id))

/-- The admin lookup inside `register_telegram_user` (src/bot/bot.py,
lines 158-162): the user row whose email equals the configured
`ADMIN_EMAIL` environment value (when that variable is set). -/
def find_admin_user (db : UsersDB) (adminEmail : Option String) : Option UserRec :=
  db.find? (fun u => decide (some u.email = adminEmail))

/-- The row `register_telegram_user` inserts for a fresh chat user
(src/bot/bot.py, lines 173-191): synthesized email
`telegram_{id}@telegram.user`, sentinel password `telegram_only_user`,
active, with the chat id linked (the fresh serial id is passed in; the
`twofa_enabled` column keeps its schema default `false`). -/
def telegram_user_row (uid : Nat) (telegram_id : Int) : UserRec :=
  { id := uid,
    email := "telegram_" ++ toString telegram_id ++ "@telegram.user",
    hashed_password := "telegram_only_user",
    is_active := true,
    twofa_enabled := false,
    telegram_id := some telegram_id }

/-- src/bot/bot.py, lines 153-196 (`register_telegram_user`): for the
configured admin chat id with an existing admin row (looked up by the
`ADMIN_EMAIL` environment value) the row's telegram id is updated;
otherwise a user is created with the synthesized email and sentinel
password of `telegram_user_row` (the fresh serial id is modelled as the
table length). Returns (user id, users table). -/
def register_telegram_user (adminId : Int) (adminEmail : Option String) (db : UsersDB)
    (telegram_id : Int) : Nat × UsersDB :=
  let created : Nat × UsersDB :=
    (db.length, db ++ [telegram_user_row db.length telegram_id])
  if telegram_id = adminId then
    match find_admin_user db adminEmail with
    | some admin =>
        (admin.id,
         db.map (fun u => if u.id = admin.id then { u with telegram_id := some telegram_id } else u))
    | none => created
  else created

/-- src/bot/bot.py, lines 198-219 (`get_user_files`): the user's rows,
filtered by category when one is given and it is neither empty (falsy) nor
"all", newest first (the model keeps the table newest-first), limited. -/
def get_user_files (db : FilesDB) (user_id : Nat) (category : Option String)
    (limit : Nat) : List BFile :=
  (db.filter (fun f =>
    f.user_id == user_id
    && (match category with
        | none => true
        | some c => if c = "" || c = "all" then true else f.category == c))).take limit

/-- src/bot/bot.py, lines 106-137 (`save_file_metadata`): classify, insert
the row (fresh serial id modelled as `length + 1`), then delete the single
literal Redis key `files:{user_id}:*`. Returns (file id, files, cache). -/
def save_file_metadata (fdb : FilesDB) (r : Redis) (telegram_file_id file_name : String)
    (file_size : Nat) (mime_type : String) (user_id : Nat) (now : Nat) :
    Nat × FilesDB × Redis :=
  let category := categorize_file file_name mime_type
  let fid := fdb.length + 1
  let f : BFile :=
    { id := fid, name := file_name, telegram_file_id := telegram_file_id,
      size := file_size, mime_type := mime_type, category := category,
      user_id := user_id, created_at := now }
  (fid, f :: fdb, redisDelete r ("files:" ++ toString user_id ++ ":*"))

/-- src/bot/bot.py, lines 221-237 (`search_files`): the user's rows whose
name contains the term case-insensitively (`ILIKE '%term%'`), newest
first (the model keeps the table newest-first), limited to 20. -/
def search_files (db : FilesDB) (user_id : Nat) (search_term : String) : List BFile :=
  (db.filter (fun f =>
    f.user_id == user_id
    && containsSub (strLower search_term).data (strLower f.name).data)).take 20

/-- Insertion into a sorted list of strings (ascending). -/
def insertSorted (s : String) : List String → List String
  | [] => [s]
  | x :: xs => if s ≤ x then s :: x :: xs else x :: insertSorted s xs

/-- Insertion sort on strings (the SQL `ORDER BY category` ascending). -/
def sortStrings : List String → List String
  | [] => []
  | x :: xs => insertSorted x (sortStrings xs)

/-- Removal of adjacent duplicates (with `sortStrings`, the SQL
`SELECT DISTINCT`). -/
def dedupAdjacent : List String → List String
  | [] => []
  | [x] => [x]
  | x :: y :: xs =>
      if x = y then dedupAdjacent (y :: xs) else x :: dedupAdjacent (y :: xs)

/-- src/bot/bot.py, lines 239-251 (`get_user_categories`): the distinct
categories of the user's rows, ascending. -/
def get_user_categories (db : FilesDB) (user_id : Nat) : List String :=
  dedupAdjacent (sortStrings
    ((db.filter (fun f => f.user_id == user_id)).map (fun f => f.category)))

/-- The observable reply of a bot command handler: the register prompt
(literally "Please use /start to register first."), the welcome messages
of /start, the empty-collection message, the formatted file list
(identified by the rows listed; /files and /recent differ only in their
header text), the category list, the missing-search-term prompt, or the
search results. -/
inductive Reply where
  | registerPrompt
  | welcome
  | welcomeBack
  | noFiles (category : Option String)
  | fileList (files : List BFile)
  | categoriesList (categories : List String)
  | searchPromptMissing
  | noResults (term : String)
  | searchResults (files : List BFile)
  deriving DecidableEq

/-- src/bot/bot.py, lines 254-275 (`start_command`): an unknown sender is
registered via `register_telegram_user` and welcomed; a known sender is
welcomed back with no table change. -/
def start_command (adminId : Int) (adminEmail : Option String) (udb : UsersDB)
    (telegram_id : Int) : Reply × UsersDB :=
  match get_user_by_telegram_id udb telegram_id with
  | none => (.welcome, (register_telegram_user adminId adminEmail udb telegram_id).2)
  | some _ => (.welcomeBack, udb)

/-- src/bot/bot.py, lines 292-327 (`files_command`): an unknown sender is
told to /start and nothing else happens; otherwise the first argument
(lower-cased) selects the category and up to 10 files are listed.  The
users table is returned alongside the reply so that (non-)provisioning is
observable. -/
def files_command (udb : UsersDB) (fdb : FilesDB) (telegram_id : Int)
    (args : List String) : Reply × UsersDB :=
  match get_user_by_telegram_id udb telegram_id with
  | none => (.registerPrompt, udb)
  | some user =>
      let category := match args with
        | [] => none
        | a :: _ => some (strLower a)
      let files := get_user_files fdb user.id category 10
      if files.isEmpty then (.noFiles category, udb) else (.fileList files, udb)

/-- src/bot/bot.py, lines 329-352 (`categories_command`): an unknown
sender is told to /start and nothing else happens; otherwise the user's
distinct categories are listed (the empty case replies with the same
"no files yet" message as /files). -/
def categories_command (udb : UsersDB) (fdb : FilesDB) (telegram_id : Int) :
    Reply × UsersDB :=
  match get_user_by_telegram_id udb telegram_id with
  | none => (.registerPrompt, udb)
  | some user =>
      let categories := get_user_categories fdb user.id
      if categories.isEmpty then (.noFiles none, udb)
      else (.categoriesList categories, udb)

/-- src/bot/bot.py, lines 354-388 (`search_command`): an unknown sender is
told to /start and nothing else happens; otherwise a missing term is
prompted for, and the space-joined arguments are searched. -/
def search_command (udb : UsersDB) (fdb : FilesDB) (telegram_id : Int)
    (args : List String) : Reply × UsersDB :=
  match get_user_by_telegram_id udb telegram_id with
  | none => (.registerPrompt, udb)
  | some user =>
      if args.isEmpty then (.searchPromptMissing, udb)
      else
        let search_term := String.intercalate " " args
        let files := search_files fdb user.id search_term
        if files.isEmpty then (.noResults search_term, udb)
        else (.searchResults files, udb)

/-- src/bot/bot.py, lines 390-417 (`recent_command`): an unknown sender is
told to /start and nothing else happens; otherwise the 10 most recent
files are listed (`get_user_files` with no category filter). -/
def recent_command (udb : UsersDB) (fdb : FilesDB) (telegram_id : Int) :
    Reply × UsersDB :=
  match get_user_by_telegram_id udb telegram_id with
  | none => (.registerPrompt, udb)
  | some user =>
      let files := get_user_files fdb user.id none 10
      if files.isEmpty then (.noFiles none, udb) else (.fileList files, udb)

structure DocMeta where
  file_id : String
  file_name : String
  file_size : Nat
  mime_type : String
  deriving DecidableEq

/-- src/bot/bot.py, lines 420-450 (`handle_document`): resolve the sender,
auto-provisioning via `register_telegram_user` when unknown, then save the
attachment's metadata. Returns (users, files, cache, new file id). -/
def handle_document (adminId : Int) (adminEmail : Option String) (udb : UsersDB)
    (fdb : FilesDB) (r : Redis) (telegram_id : Int) (doc : DocMeta) (now : Nat) :
    UsersDB × FilesDB × Redis × Nat :=
  let resolved : Nat × UsersDB :=
    match get_user_by_telegram_id udb telegram_id with
    | none => register_telegram_user adminId adminEmail udb telegram_id
    | some user => (user.id, udb)
  let saved := save_file_metadata fdb r doc.file_id doc.file_name doc.file_size
    doc.mime_type resolved.1 now
  (resolved.2, saved.2.1, saved.2.2, saved.1)

end Bot

/-! ### Rate limiter -/

/-- Modelled from the spec: `app.utils.rate_limit.RateLimiter` is not
under src/. Per spec section 4.3 the limiter keeps, per client identity,
an incrementing counter with an expiry equal to the window: the first
request (or any request after expiry) resets the counter to 1 and the
expiry to now + window; a request is admitted while the incremented count
stays within the quota. -/
structure RateCounter where
  count : Nat
  expiresAt : Nat
  deriving DecidableEq

def check_rate_limit (limit window : Nat) (s : Option RateCounter) (now : Nat) :
    Bool × Option RateCounter :=
  match s with
  | none => (decide (1 ≤ limit), some { count := 1, expiresAt := now + window })
  | some c =>
      if c.expiresAt ≤ now then
        (decide (1 ≤ limit), some { count := 1, expiresAt := now + window })
      else
        (decide (c.count + 1 ≤ limit), some { count := c.count + 1, expiresAt := c.expiresAt })

/-- src/backend/app/core/config.py, lines 64-65 (defaults). -/
def RATE_LIMIT_REQUESTS : Nat := 100

def RATE_LIMIT_WINDOW : Nat := 60

/-- src/backend/app/main.py, lines 46-62 (`rate_limit_middleware`): the
health path bypasses the gate; otherwise a rejected request is answered
with HTTP 429 and an admitted request proceeds (the downstream handler's
success is abstracted as status 200). -/
def rate_limit_middleware (limit window : Nat) (path : String) (s : Option RateCounter)
    (now : Nat) : Nat × Option RateCounter :=
  if path = "/health" then (200, s)
  else
    let g := check_rate_limit limit window s now
    if g.1 then (200, g.2) else (429, g.2)

/-- The statuses of a sequence of requests on one path from one client. -/
def runMiddleware (limit window : Nat) (path : String) (s : Option RateCounter) :
    List Nat → List Nat × Option RateCounter
  | [] => ([], s)
  | t :: ts =>
      let g := rate_limit_middleware limit window path s t
      let rest := runMiddleware limit window path g.2 ts
      (g.1 :: rest.1, rest.2)

/-! ### Concrete scenario inputs used by individual theorems -/

/-- A pre-existing file of user "user-1" (cache-invalidation scenario). -/
def c2_oldFile : Api.FileRec :=
  { id := 1, name := "old.pdf", telegram_file_id := "tg-old", size := 100,
    mime_type := "application/pdf", category := "document", user_id := "user-1",
    created_at := 0 }

/-- An upload without a client-supplied category (cache-invalidation scenario). -/
def c2_upload : Api.UploadData :=
  { name := "new.png", telegram_file_id := "tg-new", size := 5,
    mime_type := "image/png", category := none }

/-- The first list query of the scenario: empty cache, one stored file. -/
def c2_run1 : String × Redis :=
  Api.list_files [c2_oldFile] [] "user-1" none none 0 100

/-- The mutation of the scenario: an upload for the same user, against the
cache left by the first query. -/
def c2_mutated : Api.FileRec × Api.FilesDB × Redis :=
  Api.upload_file [c2_oldFile] c2_run1.2 "user-1" c2_upload 1

/-- The second list query of the scenario, after the mutation. -/
def c2_run2 : String × Redis :=
  Api.list_files c2_mutated.2.1 c2_mutated.2.2 "user-1" none none 0 100

/-- An upload whose request body carries an arbitrary category string. -/
def c3_upload : Api.UploadData :=
  { name := "data.bin", telegram_file_id := "tg-3", size := 10,
    mime_type := "application/octet-stream", category := some "banana" }

/-- An existing admin account not yet linked to a chat id
(auto-provisioning scenario, admin branch). -/
def c5_admin : UserRec :=
  { id := 3, email := "admin@x.com", hashed_password := "hp", is_active := true,
    twofa_enabled := false, telegram_id := none }

/-- A PDF attachment (auto-provisioning scenario). -/
def c5_doc : Bot.DocMeta :=
  { file_id := "tg1", file_name := "a.pdf", file_size := 10,
    mime_type := "application/pdf" }

/-- A user with 2FA enabled (login scenario). -/
def c6_user : UserRec :=
  { id := 1, email := "a@x.com", hashed_password := "hashed", is_active := true,
    twofa_enabled := true, telegram_id := none }

/-- A file owned by "user-2" (ownership-gate scenario). -/
def c7_file : Api.FileRec :=
  { id := 1, name := "secret.pdf", telegram_file_id := "tg-7", size := 1,
    mime_type := "application/pdf", category := "document", user_id := "user-2",
    created_at := 0 }

/-! ## Helper lemmas -/

/-- A category produced by a table lookup is one of the table's categories. -/
theorem findCategory_mem {t : List (String × List String)} {k c : String}
    (h : findCategory t k = some c) : c ∈ t.map Prod.fst := by
  induction t with
  | nil => simp [findCategory] at h
  | cons p rest ih =>
      obtain ⟨a, b⟩ := p
      by_cases hk : k ∈ b
      · rw [findCategory, if_pos hk] at h
        injection h with h'
        simp [h']
      · rw [findCategory, if_neg hk] at h
        simp [ih h]

/-- The classifier only ever returns a closed-vocabulary tag. -/
theorem categorize_file_mem_closed (name mime : String) :
    categorize_file name mime ∈ closedCategories := by
  unfold categorize_file
  cases h1 : findCategory FILE_CATEGORIES mime with
  | some c =>
      have hm := findCategory_mem h1
      rw [show FILE_CATEGORIES.map Prod.fst
          = ["image", "video", "audio", "document", "spreadsheet", "presentation",
             "archive", "code"] from rfl] at hm
      fin_cases hm <;> simp [closedCategories]
  | none =>
      cases h2 : findCategory FILE_EXTENSIONS (splitext (strLower name)).2 with
      | some c =>
          have hm := findCategory_mem h2
          rw [show FILE_EXTENSIONS.map Prod.fst
              = ["image", "video", "audio", "document", "spreadsheet", "presentation",
                 "archive", "code"] from rfl] at hm
          fin_cases hm <;> simp [h2, closedCategories]
      | none => simp [h2, closedCategories]

/-! ## Claim theorems -/

/-- C1: `categorize_file` follows strict priority: a MIME type present in
`FILE_CATEGORIES` decides the category regardless of the file name; with
an unknown MIME type, the lower-cased name's extension decides via
`FILE_EXTENSIONS`; with neither, the result is "other".  (Totality and
purity hold by construction: the embedding is a total function of its two
arguments.) -/
theorem categorize_file_strict_priority (name mime : String) :
    (∀ c, findCategory FILE_CATEGORIES mime = some c →
        ∀ other : String, categorize_file other mime = c)
  ∧ (findCategory FILE_CATEGORIES mime = none →
      ∀ c, findCategory FILE_EXTENSIONS (splitext (strLower name)).2 = some c →
        categorize_file name mime = c)
  ∧ (findCategory FILE_CATEGORIES mime = none →
      findCategory FILE_EXTENSIONS (splitext (strLower name)).2 = none →
        categorize_file name mime = "other") := by
  refine ⟨?_, ?_, ?_⟩
  · intro c h other
    unfold categorize_file
    rw [h]
  · intro h c h2
    unfold categorize_file
    simp only [h, h2]
  · intro h h2
    unfold categorize_file
    simp only [h, h2]

/-- Witness for C1: each of the three priority cases at a concrete input
(upper-case name in the MIME case and the extension case, so the
case-insensitive comparison is exercised). -/
theorem categorize_file_strict_priority_witness :
    categorize_file "HOLIDAY.PNG" "video/mp4" = "video"
  ∧ categorize_file "Notes.TXT" "text/x-unknown" = "document"
  ∧ categorize_file "blob.xyz" "application/x-unknown" = "other" :=
  ⟨(categorize_file_strict_priority "unused" "video/mp4").1 "video" (by decide) "HOLIDAY.PNG",
   (categorize_file_strict_priority "Notes.TXT" "text/x-unknown").2.1 (by decide) "document"
     (by decide),
   (categorize_file_strict_priority "blob.xyz" "application/x-unknown").2.2 (by decide)
     (by decide)⟩

/-- C10: for any name ending in ".txt" declared as "text/plain", MIME
priority wins: the result is "code" (the MIME table's category for
"text/plain"), not "document" (the extension table's category for
".txt"). -/
theorem txt_plain_mime_priority (name : String) (h : strEndsWith name ".txt" = true) :
    categorize_file name "text/plain" = "code"
  ∧ findCategory FILE_EXTENSIONS ".txt" = some "document"
  ∧ ("code" : String) ≠ "document" := by
  refine ⟨?_, by decide, by decide⟩
  unfold categorize_file
  rw [show findCategory FILE_CATEGORIES "text/plain" = some "code" from by decide]

/-- Witness for C10 at the concrete name "report.txt". -/
theorem txt_plain_mime_priority_witness :
    categorize_file "report.txt" "text/plain" = "code"
  ∧ findCategory FILE_EXTENSIONS ".txt" = some "document"
  ∧ ("code" : String) ≠ "document" :=
  txt_plain_mime_priority "report.txt" (by decide)

/-- C2 (failing run): user "user-1" lists files, then uploads a file, then
lists again.  The mutation's "invalidation" deletes only the literal key
"files:user-1:*", which is not the cache key of any query, so the second
query returns the exact response cached before the mutation, and that
response differs from a fresh store read (it omits the new file): the
claimed invariant is violated by the code. -/
theorem stale_cache_read_after_upload :
    c2_run2.1 = c2_run1.1
  ∧ c2_run2.1 ≠ Api.serializeFiles (Api.get_files c2_mutated.2.1 "user-1" none none 0 100)
  ∧ c2_mutated.2.2 = c2_run1.2 := by
  refine ⟨by decide, by decide, by decide⟩

/-- C3 counterexample: the API upload path stores a request-supplied
category verbatim (`file_data.get("category") or categorize_file(...)`),
so the stored tag can lie outside the closed vocabulary. -/
theorem upload_stores_open_category :
    (Api.upload_file [] [] "user-1" c3_upload 0).1.category = "banana"
  ∧ "banana" ∉ closedCategories := by
  refine ⟨by decide, by decide⟩

/-- C3 amended: every file stored by the bot attachment path carries a
closed-vocabulary category, and so does every file stored by the API
upload path when the request supplies no category (or an empty, falsy
one); only a non-empty request-supplied category string escapes the
vocabulary (it is stored verbatim). -/
theorem stored_category_closed_unless_client_supplied
    (db : Api.FilesDB) (r : Redis) (uid : String)
    (name tgid mime : String) (size now : Nat)
    (fdb : Bot.FilesDB) (br : Redis) (buid bnow : Nat) :
    ((Api.upload_file db r uid
        { name := name, telegram_file_id := tgid, size := size, mime_type := mime,
          category := none } now).1.category ∈ closedCategories)
  ∧ ((Api.upload_file db r uid
        { name := name, telegram_file_id := tgid, size := size, mime_type := mime,
          category := some "" } now).1.category ∈ closedCategories)
  ∧ ((Bot.save_file_metadata fdb br tgid name size mime buid bnow).2.1
        = { id := fdb.length + 1, name := name, telegram_file_id := tgid, size := size,
            mime_type := mime, category := categorize_file name mime, user_id := buid,
            created_at := bnow } :: fdb
      ∧ categorize_file name mime ∈ closedCategories) := by
  refine ⟨?_, ?_, rfl, categorize_file_mem_closed name mime⟩
  · simpa [Api.upload_file, Api.create_file] using categorize_file_mem_closed name mime
  · simpa [Api.upload_file, Api.create_file] using categorize_file_mem_closed name mime

/-- C7: for a nonexistent file id, or a file owned by another user, both
the download gate and the delete endpoint answer exactly 404 (never 403),
and the delete endpoint leaves the file store and the cache unchanged. -/
theorem foreign_or_missing_file_404 (db : Api.FilesDB) (r : Redis) (uid : String) (fid : Nat)
    (h : Api.get_file_by_id db fid = none
         ∨ ∃ f, Api.get_file_by_id db fid = some f ∧ f.user_id ≠ uid) :
    Api.download_file_gate db uid fid = .error 404
  ∧ Api.delete_file db r uid fid = (404, db, r) := by
  rcases h with h | ⟨f, hf, hu⟩
  · exact ⟨by simp [Api.download_file_gate, h], by simp [Api.delete_file, h]⟩
  · exact ⟨by simp [Api.download_file_gate, hf, hu],
           by simp [Api.delete_file, hf, hu]⟩

/-- Witness for C7: "user-1" requests file 1, which belongs to "user-2"
(and, on the same store, the nonexistent id 99). -/
theorem foreign_or_missing_file_404_witness :
    (Api.download_file_gate [c7_file] "user-1" 1 = .error 404
      ∧ Api.delete_file [c7_file] [] "user-1" 1 = (404, [c7_file], []))
  ∧ (Api.download_file_gate [c7_file] "user-1" 99 = .error 404
      ∧ Api.delete_file [c7_file] [] "user-1" 99 = (404, [c7_file], [])) :=
  ⟨foreign_or_missing_file_404 [c7_file] [] "user-1" 1
      (Or.inr ⟨c7_file, by decide, by decide⟩),
   foreign_or_missing_file_404 [c7_file] [] "user-1" 99 (Or.inl (by decide))⟩

/-- Key shapes used by the magic-link flow never collide: a bearer-token
key is not a magic-link key. -/
theorem token_key_ne_magic_key (a b : String) : ("token:" ++ a) ≠ ("magic_link:" ++ b) := by
  intro hEq
  have hd : ("token:" ++ a).data = ("magic_link:" ++ b).data := by rw [hEq]
  rw [String.data_append, String.data_append] at hd
  rw [show "token:".data = ['t', 'o', 'k', 'e', 'n', ':'] from rfl] at hd
  rw [show "magic_link:".data = ['m', 'a', 'g', 'i', 'c', '_', 'l', 'i', 'n', 'k', ':'] from rfl] at hd
  simp at hd

/-- C8: a magic-link token redeems at most once: a successful redemption
yields the fresh bearer token and deletes the `magic_link:{token}` key, so
redeeming the same token again against the resulting cache fails with
401. -/
theorem magic_link_single_use (r : Redis) (token t1 t2 : String) (ttl1 ttl2 : Nat)
    (uid : String) (h : redisGet r ("magic_link:" ++ token) = some uid) :
    (Api.verify_magic_link r token t1 ttl1).1 = .ok t1
  ∧ (Api.verify_magic_link (Api.verify_magic_link r token t1 ttl1).2 token t2 ttl2).1
      = .error 401 := by
  have hr2 : (Api.verify_magic_link r token t1 ttl1).2
      = redisSetex (redisDelete r ("magic_link:" ++ token)) ("token:" ++ t1) ttl1 uid := by
    unfold Api.verify_magic_link
    rw [h]
  have h1 : (Api.verify_magic_link r token t1 ttl1).1 = .ok t1 := by
    unfold Api.verify_magic_link
    rw [h]
  have hnone : redisGet ((Api.verify_magic_link r token t1 ttl1).2)
      ("magic_link:" ++ token) = none := by
    rw [hr2]
    unfold redisGet redisSetex redisDelete
    rw [List.find?_cons_of_neg _ (by simpa using token_key_ne_magic_key t1 token)]
    rw [List.find?_eq_none.mpr]
    · rfl
    · intro p hp
      have hmem := (List.mem_filter.mp (List.mem_filter.mp hp).1).2
      simpa using hmem
  refine ⟨h1, ?_⟩
  generalize hs : (Api.verify_magic_link r token t1 ttl1).2 = s at hnone ⊢
  unfold Api.verify_magic_link
  rw [hnone]

/-- Witness for C8: a cache holding one magic-link token for user 7. -/
theorem magic_link_single_use_witness :
    (Api.verify_magic_link [("magic_link:abc", "7")] "abc" "tok1" 60).1 = .ok "tok1"
  ∧ (Api.verify_magic_link
        (Api.verify_magic_link [("magic_link:abc", "7")] "abc" "tok1" 60).2
        "abc" "tok2" 60).1 = .error 401 :=
  magic_link_single_use [("magic_link:abc", "7")] "abc" "tok1" "tok2" 60 60 "7" (by decide)

/-- C5 counterexample: a /files command from chat identity 42, who has no
account, does not auto-provision a user and does not run the operation:
the handler replies "Please use /start to register first." and the users
table is unchanged (still empty). -/
theorem files_command_no_autoprovision :
    Bot.files_command [] [] 42 [] = (.registerPrompt, []) := by decide

/-- Unless the sender is the admin chat id with an existing admin-email
row, `register_telegram_user` creates the synthesized sentinel user. -/
theorem register_telegram_user_creates (adminId : Int) (adminEmail : Option String)
    (udb : UsersDB) (telegram_id : Int)
    (h : telegram_id = adminId → Bot.find_admin_user udb adminEmail = none) :
    Bot.register_telegram_user adminId adminEmail udb telegram_id
      = (udb.length, udb ++ [Bot.telegram_user_row udb.length telegram_id]) := by
  simp only [Bot.register_telegram_user]
  by_cases ha : telegram_id = adminId
  · rw [if_pos ha, h ha]
  · rw [if_neg ha]

/-- For the admin chat id with an existing admin-email row,
`register_telegram_user` links that row instead of creating one. -/
theorem register_telegram_user_links (adminId : Int) (adminEmail : Option String)
    (udb : UsersDB) (telegram_id : Int) (admin : UserRec)
    (ha : telegram_id = adminId)
    (hfound : Bot.find_admin_user udb adminEmail = some admin) :
    Bot.register_telegram_user adminId adminEmail udb telegram_id
      = (admin.id,
         udb.map (fun u =>
           if u.id = admin.id then { u with telegram_id := some telegram_id } else u)) := by
  simp only [Bot.register_telegram_user]
  rw [if_pos ha, hfound]

/-- C5 amended: from a chat identity with no matching account, an inbound
attachment and the /start command auto-provision and then run the
operation: unless the sender is the admin chat id with an existing
admin-email row, a user is created with the synthesized email
`telegram_{id}@telegram.user` and the sentinel password
`telegram_only_user`, and the attachment is stored under the new user id;
for the admin chat id with an existing admin-email row, that account is
linked (its telegram id is set) instead, and the attachment is stored
under the admin's id.  The browsing commands (/files, /categories,
/search, /recent) do NOT auto-provision: an unknown sender is answered
"Please use /start to register first.", the users table is unchanged and
the requested operation does not run. -/
theorem chat_autoprovision_amended (adminId : Int) (adminEmail : Option String)
    (udb : UsersDB) (fdb : Bot.FilesDB) (r : Redis) (telegram_id : Int)
    (doc : Bot.DocMeta) (now : Nat) (args : List String)
    (hnew : Bot.get_user_by_telegram_id udb telegram_id = none) :
    ((telegram_id = adminId → Bot.find_admin_user udb adminEmail = none) →
        Bot.handle_document adminId adminEmail udb fdb r telegram_id doc now
          = (udb ++ [Bot.telegram_user_row udb.length telegram_id],
             { id := fdb.length + 1, name := doc.file_name,
               telegram_file_id := doc.file_id, size := doc.file_size,
               mime_type := doc.mime_type,
               category := categorize_file doc.file_name doc.mime_type,
               user_id := udb.length, created_at := now } :: fdb,
             redisDelete r ("files:" ++ toString udb.length ++ ":*"),
             fdb.length + 1)
        ∧ Bot.start_command adminId adminEmail udb telegram_id
            = (.welcome, udb ++ [Bot.telegram_user_row udb.length telegram_id]))
  ∧ (∀ admin, telegram_id = adminId →
      Bot.find_admin_user udb adminEmail = some admin →
        Bot.handle_document adminId adminEmail udb fdb r telegram_id doc now
          = (udb.map (fun u =>
               if u.id = admin.id then { u with telegram_id := some telegram_id } else u),
             { id := fdb.length + 1, name := doc.file_name,
               telegram_file_id := doc.file_id, size := doc.file_size,
               mime_type := doc.mime_type,
               category := categorize_file doc.file_name doc.mime_type,
               user_id := admin.id, created_at := now } :: fdb,
             redisDelete r ("files:" ++ toString admin.id ++ ":*"),
             fdb.length + 1)
        ∧ Bot.start_command adminId adminEmail udb telegram_id
            = (.welcome,
               udb.map (fun u =>
                 if u.id = admin.id then { u with telegram_id := some telegram_id } else u)))
  ∧ Bot.files_command udb fdb telegram_id args = (.registerPrompt, udb)
  ∧ Bot.categories_command udb fdb telegram_id = (.registerPrompt, udb)
  ∧ Bot.search_command udb fdb telegram_id args = (.registerPrompt, udb)
  ∧ Bot.recent_command udb fdb telegram_id = (.registerPrompt, udb) := by
  refine ⟨?_, ?_, ?_, ?_, ?_, ?_⟩
  · intro hna
    have hreg := register_telegram_user_creates adminId adminEmail udb telegram_id hna
    constructor
    · simp [Bot.handle_document, hnew, hreg, Bot.save_file_metadata]
    · simp [Bot.start_command, hnew, hreg]
  · intro admin ha hfound
    have hreg := register_telegram_user_links adminId adminEmail udb telegram_id admin
      ha hfound
    constructor
    · simp [Bot.handle_document, hnew, hreg, Bot.save_file_metadata]
    · simp [Bot.start_command, hnew, hreg]
  · simp [Bot.files_command, hnew]
  · simp [Bot.categories_command, hnew]
  · simp [Bot.search_command, hnew]
  · simp [Bot.recent_command, hnew]

/-- Witness for C5 amended, exercising both register branches: chat
identity 42 (not the admin id 999) against empty tables is provisioned
with the synthesized sentinel user by an attachment and by /start; the
admin chat id 999 with an existing admin-email row gets that row linked
instead; and all four browsing commands answer an unknown sender with the
register prompt, leaving the users table unchanged. -/
theorem chat_autoprovision_amended_witness :
    (Bot.handle_document 999 none [] [] [] 42 c5_doc 7
        = ([Bot.telegram_user_row 0 42],
           [{ id := 1, name := "a.pdf", telegram_file_id := "tg1", size := 10,
              mime_type := "application/pdf", category := "document", user_id := 0,
              created_at := 7 }],
           [], 1)
      ∧ Bot.start_command 999 none [] 42 = (.welcome, [Bot.telegram_user_row 0 42]))
  ∧ (Bot.handle_document 999 (some "admin@x.com") [c5_admin] [] [] 999 c5_doc 7
        = ([{ c5_admin with telegram_id := some 999 }],
           [{ id := 1, name := "a.pdf", telegram_file_id := "tg1", size := 10,
              mime_type := "application/pdf", category := "document", user_id := 3,
              created_at := 7 }],
           [], 1)
      ∧ Bot.start_command 999 (some "admin@x.com") [c5_admin] 999
          = (.welcome, [{ c5_admin with telegram_id := some 999 }]))
  ∧ Bot.files_command [] [] 42 [] = (.registerPrompt, [])
  ∧ Bot.categories_command [] [] 42 = (.registerPrompt, [])
  ∧ Bot.search_command [] [] 42 [] = (.registerPrompt, [])
  ∧ Bot.recent_command [] [] 42 = (.registerPrompt, []) := by
  have h1 := chat_autoprovision_amended 999 none [] [] [] 42 c5_doc 7 [] rfl
  have h2 := chat_autoprovision_amended 999 (some "admin@x.com") [c5_admin] [] [] 999
    c5_doc 7 [] (by decide)
  refine ⟨?_, ?_, h1.2.2.1, h1.2.2.2.1, h1.2.2.2.2.1, h1.2.2.2.2.2⟩
  · have hc := h1.1 (fun _ => rfl)
    exact ⟨by rw [hc.1]; decide, by rw [hc.2]; decide⟩
  · have hc := h2.2.1 c5_admin rfl (by decide)
    exact ⟨by rw [hc.1]; decide, by rw [hc.2]; decide⟩

/-- C6 counterexample: a login with the correct password for a 2FA-enabled
user but no 2FA code yields no bearer token, yet the endpoint answers 202
with a `require_2fa` body, not 401. -/
theorem login_2fa_pending_is_202 :
    Api.login_user [c6_user] (fun p h => p == "secret") (fun _ _ => false)
        "a@x.com" "secret" none = .require2fa
  ∧ Api.loginStatus .require2fa = 202
  ∧ (∀ uid, Api.LoginOutcome.require2fa ≠ .success uid)
  ∧ (202 : Nat) ≠ 401 := by
  refine ⟨by decide, rfl, ?_, by decide⟩
  intro uid h
  exact Api.LoginOutcome.noConfusion h

/-- C6 amended: every login request that yields no bearer token is
answered 401 (wrong email, wrong password, failed 2FA), EXCEPT the one
case where the password verifies, the user has 2FA enabled and no (or an
empty, falsy) 2FA code was supplied: that request is answered 202 with
`require_2fa`. -/
theorem login_no_token_amended (db : UsersDB) (vp : String → String → Bool)
    (v2 : Nat → String → Bool) (email password : String) (code : Option String)
    (h : ∀ uid, Api.login_user db vp v2 email password code ≠ .success uid) :
    Api.loginStatus (Api.login_user db vp v2 email password code) = 401
  ∨ (Api.login_user db vp v2 email password code = .require2fa
     ∧ ∃ user, Api.get_user_by_email db email = some user
         ∧ vp password user.hashed_password = true
         ∧ user.twofa_enabled = true
         ∧ (code = none ∨ code = some "")) := by
  unfold Api.login_user at h ⊢
  cases hu : Api.get_user_by_email db email with
  | none => left; rfl
  | some user =>
      by_cases hv : vp password user.hashed_password = false
      · left; simp [Api.loginStatus, hu, hv]
      · have hv' : vp password user.hashed_password = true := by
          revert hv; cases vp password user.hashed_password <;> simp
        by_cases h2 : user.twofa_enabled = true
        · cases code with
          | none =>
              right
              exact ⟨by simp [hu, hv, h2], user, rfl, hv', h2, Or.inl rfl⟩
          | some c =>
              by_cases hc : c = ""
              · subst hc
                right
                exact ⟨by simp [hu, hv, h2], user, rfl, hv', h2, Or.inr rfl⟩
              · by_cases hverify : v2 user.id c = false
                · left; simp [Api.loginStatus, hu, hv, h2, hc, hverify]
                · exact absurd (by simp [hu, hv, h2, hc, hverify]) (h user.id)
        · exact absurd (by simp [hu, hv, h2]) (h user.id)

/-- Witness for C6 amended: the 2FA-pending login (no token issued) falls
into the 202 `require_2fa` arm. -/
theorem login_no_token_amended_witness :
    Api.loginStatus (Api.login_user [c6_user] (fun p h => p == "secret") (fun _ _ => false)
        "a@x.com" "secret" none) = 401
  ∨ (Api.login_user [c6_user] (fun p h => p == "secret") (fun _ _ => false)
        "a@x.com" "secret" none = .require2fa
     ∧ ∃ user, Api.get_user_by_email [c6_user] "a@x.com" = some user
         ∧ (fun (p : String) (h : String) => p == "secret") "secret" user.hashed_password = true
         ∧ user.twofa_enabled = true
         ∧ ((none : Option String) = none ∨ (none : Option String) = some "")) :=
  login_no_token_amended [c6_user] (fun p h => p == "secret") (fun _ _ => false)
    "a@x.com" "secret" none
    (by
      intro uid hEq
      rw [show Api.login_user [c6_user] (fun p h => p == "secret") (fun _ _ => false)
          "a@x.com" "secret" none = .require2fa from by decide] at hEq
      exact Api.LoginOutcome.noConfusion hEq)

/-- A request sequence splits: the second half runs from the state the
first half left behind. -/
theorem runMiddleware_append (limit window : Nat) (path : String) (s : Option RateCounter)
    (l1 l2 : List Nat) :
    runMiddleware limit window path s (l1 ++ l2)
      = ((runMiddleware limit window path s l1).1
           ++ (runMiddleware limit window path (runMiddleware limit window path s l1).2 l2).1,
         (runMiddleware limit window path (runMiddleware limit window path s l1).2 l2).2) := by
  induction l1 generalizing s with
  | nil => simp [runMiddleware]
  | cons t l1 ih => simp [runMiddleware, ih]

/-- While the counter stays within the quota, every in-window request on a
non-health path is admitted (status 200) and the counter advances, keeping
the same window end. -/
theorem runMiddleware_under_quota (limit window t0 : Nat) (path : String)
    (hp : ¬ path = "/health") :
    ∀ (ts : List Nat) (k : Nat), (∀ t ∈ ts, t < t0 + window) → k + ts.length ≤ limit →
      runMiddleware limit window path (some { count := k, expiresAt := t0 + window }) ts
        = (List.replicate ts.length 200,
           some { count := k + ts.length, expiresAt := t0 + window })
  | [], k, _, _ => by simp [runMiddleware]
  | t :: ts, k, hts, hfit => by
      have ht : t < t0 + window := hts t (List.mem_cons_self t ts)
      have hnot : ¬ (t0 + window ≤ t) := by omega
      have hfit' : k + 1 + ts.length ≤ limit := by
        simp only [List.length_cons] at hfit
        omega
      have hcount : k + 1 ≤ limit := by omega
      have ih := runMiddleware_under_quota limit window t0 path hp ts (k + 1)
        (fun t' ht' => hts t' (List.mem_cons_of_mem t ht')) hfit'
      simp [runMiddleware, rate_limit_middleware, check_rate_limit, hp, hnot, hcount, ih,
        List.replicate_succ]
      omega

/-- C4: from a fresh counter, for any quota of at least one request and
any window, a client on a non-health path issuing exactly the quota of
requests within one window gets status 200 for all of them, the next
request in the same window is rejected with status 429, and a request at
or after the window's end is admitted again (the default configuration is
100 requests per 60 seconds). -/
theorem rate_limiter_quota (limit window t0 : Nat) (path : String)
    (hp : path ≠ "/health") (hl : 1 ≤ limit)
    (ts : List Nat) (hts : ∀ t ∈ ts, t < t0 + window) (hlen : ts.length + 1 = limit)
    (tR : Nat) (hR : tR < t0 + window) (tA : Nat) (hA : t0 + window ≤ tA) :
    (runMiddleware limit window path none (t0 :: (ts ++ [tR, tA]))).1
      = List.replicate limit 200 ++ [429, 200] := by
  have h1 : runMiddleware limit window path none [t0]
      = ([200], some { count := 1, expiresAt := t0 + window }) := by
    simp [runMiddleware, rate_limit_middleware, check_rate_limit, hp, hl]
  have h2 := runMiddleware_under_quota limit window t0 path hp ts 1 hts (by omega)
  have hnotR : ¬ (t0 + window ≤ tR) := by omega
  have hRej : ¬ (1 + ts.length + 1 ≤ limit) := by omega
  have h3 : runMiddleware limit window path
        (some { count := 1 + ts.length, expiresAt := t0 + window }) [tR, tA]
      = ([429, 200], some { count := 1, expiresAt := tA + window }) := by
    simp [runMiddleware, rate_limit_middleware, check_rate_limit, hp, hnotR, hRej, hA, hl]
  rw [show t0 :: (ts ++ [tR, tA]) = ([t0] ++ ts) ++ [tR, tA] from by simp]
  rw [runMiddleware_append, runMiddleware_append, h1]
  simp [h2, h3]
  rw [← hlen]
  simp [List.replicate_succ]

/-- Witness for C4: the default configuration (100 requests / 60 seconds)
on the files path: 100 requests at time 0 all pass, a 101st request still
inside the window is rejected with 429, and a request at time 60 passes
again. -/
theorem rate_limiter_quota_witness :
    (runMiddleware RATE_LIMIT_REQUESTS RATE_LIMIT_WINDOW "/api/files" none
        (0 :: (List.replicate 99 0 ++ [0, 60]))).1
      = List.replicate RATE_LIMIT_REQUESTS 200 ++ [429, 200] :=
  rate_limiter_quota RATE_LIMIT_REQUESTS RATE_LIMIT_WINDOW 0 "/api/files"
    (by decide) (by decide) (List.replicate 99 0)
    (by
      intro t ht
      rw [List.eq_of_mem_replicate ht]
      decide)
    (by decide) 0 (by decide) 60 (by decide)

end TgStorage
